import Mathlib

/-!
Verification of the student-records Flask application (`app.py`) against its
specification.  The web layer, validation layer and record store are embedded
shallowly: the SQLite-backed `student` table becomes a list of records, the
WTForms validators become boolean checks on the raw submitted strings, and
each route handler becomes a function from the store (and the request data)
to the new store and a response value.
-/

namespace SecureFlaskApp

/-! ## Data model: the `Student` table (app.py, `class Student`) -/

/-- A row of the `student` table: integer primary key plus three text
columns.  The column types place no constraint beyond being text, matching
`db.String` which SQLite does not enforce. -/
structure Student where
  id : Nat
  fname : String
  lname : String
  email : String
deriving DecidableEq, Repr

/-- The record store: the rows of the `student` table, in insertion order. -/
abbrev Store := List Student

/-- `Student.query.all()`: all rows, in store order. -/
def list_all (store : Store) : List Student := store

/-- `Student.query.get(id)`: primary-key lookup. -/
def getStudent (store : Store) (i : Nat) : Option Student :=
  store.find? (fun r => r.id == i)

/-- SQLite assigns a fresh integer primary key as one more than the largest
rowid currently in the table (1 on an empty table). -/
def nextId (store : Store) : Nat :=
  (store.map Student.id).foldr Nat.max 0 + 1

/-! ## Python string primitives used by the handlers -/

/-- The ASCII whitespace characters removed by Python `str.strip()`. -/
def isPySpace (c : Char) : Bool :=
  c == ' ' || c == '\t' || c == '\n' || c == '\r' || c == '\x0b' || c == '\x0c'

/-- `str.strip()` on the underlying character list: drop whitespace from the
front, then from the back. -/
def pyStripChars (l : List Char) : List Char :=
  ((l.dropWhile isPySpace).reverse.dropWhile isPySpace).reverse

/-- Python `str.strip()` with no argument: remove leading and trailing
whitespace. -/
def pyStrip (s : String) : String :=
  ⟨pyStripChars s.data⟩

/-! ## Validation layer: `StudentForm` (WTForms) -/

/-- The submitted form fields, as raw strings from the request. -/
structure StudentFormData where
  fname : String
  lname : String
  email : String
deriving DecidableEq, Repr

/-- A character accepted by the `Regexp('^[A-Za-z ]*$')` character class:
an ASCII letter or a space. -/
def nameChar (c : Char) : Bool :=
  c.isAlpha || c == ' '

/-- The `Regexp('^[A-Za-z ]*$')` validator.  Python `re` anchors `$` at the
end of the string or just before a single trailing newline, so a value whose
body is letters/spaces followed by one final newline also matches. -/
def nameRegexpOk (s : String) : Bool :=
  s.data.all nameChar ||
    (s.data.getLast? == some '\n' && s.data.dropLast.all nameChar)

/-- The `DataRequired()` validator: fails when the raw value is empty or
consists only of whitespace (it checks `field.data.strip()`). -/
def dataRequiredOk (s : String) : Bool :=
  !(pyStripChars s.data).isEmpty

/-- The `Length(min=2, max=50)` validator, applied to the raw (untrimmed)
value; Python `len` counts characters. -/
def lengthOk (s : String) : Bool :=
  decide (2 ≤ s.data.length) && decide (s.data.length ≤ 50)

/-- The `Email` validator, which the form applies to the raw value.
Modelled from the spec: the `email_validator` package behind
`wtforms.validators.Email` is third-party code not in this repository; the
spec requires "a standard email-address shape (local-part `@` domain with at
least one dot)", which excludes whitespace and requires exactly one `@`,
a nonempty local part and a nonempty domain containing a dot. -/
def emailOk (s : String) : Bool :=
  s.data.count '@' == 1 &&
    !(s.data.takeWhile (fun c => !(c == '@'))).isEmpty &&
    !((s.data.dropWhile (fun c => !(c == '@'))).drop 1).isEmpty &&
    ((s.data.dropWhile (fun c => !(c == '@'))).drop 1).contains '.' &&
    s.data.all (fun c => !isPySpace c)

/-- Errors of the `fname`/`lname` field chain: `DataRequired` stops the
chain on failure; otherwise `Length` and `Regexp` each contribute their
message when they fail. -/
def nameFieldErrors (s : String) : List String :=
  if dataRequiredOk s then
    (if lengthOk s then [] else ["Field must be between 2 and 50 characters long."]) ++
      (if nameRegexpOk s then [] else ["Only letters allowed"])
  else ["This field is required."]

/-- Errors of the `email` field chain (`DataRequired` then `Email`). -/
def emailFieldErrors (s : String) : List String :=
  if dataRequiredOk s then
    (if emailOk s then [] else ["Invalid email format"])
  else ["This field is required."]

/-- All field errors of `StudentForm.validate`, tagged with the name of the
offending field. -/
def formErrors (fd : StudentFormData) : List (String × String) :=
  (nameFieldErrors fd.fname).map (fun m => ("fname", m)) ++
    (nameFieldErrors fd.lname).map (fun m => ("lname", m)) ++
    (emailFieldErrors fd.email).map (fun m => ("email", m))

/-- `form.validate_on_submit()` on a POST: true when no field has an
error. -/
def formValidates (fd : StudentFormData) : Bool :=
  (formErrors fd).isEmpty

/-! ## Web layer: responses and route handlers -/

/-- The responses a handler can produce: a redirect carrying a flashed
notice, a rendered template carrying field errors and the entered values,
or the 404 page produced by `get_or_404`. -/
inductive Response where
  | redirect (location : String) (notice : String)
  | html (template : String) (errors : List (String × String)) (values : StudentFormData)
  | notFound
deriving DecidableEq, Repr

/-- `POST /` (the create half of `index`): on successful validation insert a
row built from the stripped field values, flash a notice and redirect;
otherwise leave the store unchanged and re-render `index.html` with the
errors and the entered values. -/
def postIndex (store : Store) (fd : StudentFormData) : Store × Response :=
  if formValidates fd then
    (store ++ [⟨nextId store, pyStrip fd.fname, pyStrip fd.lname, pyStrip fd.email⟩],
      .redirect "/" "Student added successfully and securely!")
  else
    (store, .html "index.html" (formErrors fd) fd)

/-- The per-row effect of a successful update of id `i`: the row with that
primary key gets the three stripped field values (its id is untouched);
every other row is unchanged. -/
def applyUpdate (i : Nat) (fd : StudentFormData) (r : Student) : Student :=
  if r.id == i then ⟨r.id, pyStrip fd.fname, pyStrip fd.lname, pyStrip fd.email⟩ else r

/-- `GET /update/<id>`: `get_or_404`, then render the form pre-filled with
the record's current values. -/
def getUpdate (store : Store) (i : Nat) : Store × Response :=
  match getStudent store i with
  | none => (store, .notFound)
  | some s => (store, .html "update.html" [] ⟨s.fname, s.lname, s.email⟩)

/-- `POST /update/<id>`: `get_or_404`; on successful validation overwrite
the three fields with the stripped values and redirect; on validation
failure re-render `update.html`. -/
def postUpdate (store : Store) (i : Nat) (fd : StudentFormData) : Store × Response :=
  match getStudent store i with
  | none => (store, .notFound)
  | some _ =>
    if formValidates fd then
      (store.map (applyUpdate i fd), .redirect "/" "Record updated securely!")
    else
      (store, .html "update.html" (formErrors fd) fd)

/-- `/delete/<id>`: `get_or_404`, then delete the row and redirect with a
notice. -/
def deleteRoute (store : Store) (i : Nat) : Store × Response :=
  match getStudent store i with
  | none => (store, .notFound)
  | some _ =>
    (store.filter (fun r => !(r.id == i)), .redirect "/" "Student deleted securely!")

/-- The HTTP methods of the `index` route (`methods=['GET', 'POST']`). -/
def indexMethods : List String := ["GET", "POST"]

/-- The HTTP methods of the `update` route (`methods=['GET', 'POST']`). -/
def updateMethods : List String := ["GET", "POST"]

/-- The HTTP methods of the `delete` route: its decorator passes no
`methods` argument, so Flask registers it for GET only, adding the
automatic HEAD and OPTIONS handlers. -/
def deleteMethods : List String := ["GET", "HEAD", "OPTIONS"]

/-- `find_by_email`: the parameter-bound query
`SELECT * FROM student WHERE email=:email` — the bound value is compared as
a literal string against the `email` column of each row. -/
def find_by_email (store : Store) (email : String) : List Student :=
  store.filter (fun r => r.email == email)

/-- `GET /search`: `request.args.get('email', '')` defaults a missing
parameter to the empty string, and the handler only consults the store when
the resulting string is truthy (nonempty). -/
def searchRoute (store : Store) (param : Option String) : List Student :=
  let email := param.getD ""
  if email == "" then [] else find_by_email store email

/-! ## Credential hasher (flask_bcrypt) and error handlers -/

/-- Modelled from the spec: `flask_bcrypt.generate_password_hash` is
third-party code not in this repository.  Per the spec it is a salted
one-way hash whose output embeds the salt; the digest here is a per-character
transcription standing in for the (unmodellable) one-way function.  It keeps
the length of the plaintext, which is all the theorems use. -/
def bcryptDigest (p : String) : String :=
  ⟨p.data.map (fun c => Char.ofNat (c.toNat + 1))⟩

/-- Length of a bcrypt salt in its textual form. -/
def bcryptSaltLen : Nat := 22

/-- Modelled from the spec: bcrypt's hash string is a fixed version/cost
header, the 22-character salt, then the digest.  The randomized salt drawn
on each call is made explicit as the `salt` argument. -/
def generate_password_hash (salt p : String) : String :=
  ⟨"$2b$12$".data ++ salt.data ++ (bcryptDigest p).data⟩

/-- Modelled from the spec: the hasher's verify operation re-derives the
digest from the plaintext and the salt embedded in the hash string and
compares. -/
def check_password_hash (h p : String) : Bool :=
  h.data.take 7 == "$2b$12$".data &&
    h.data.drop (7 + bcryptSaltLen) == (bcryptDigest p).data

/-- `GET /hash_password/<pwd>`: echoes the plaintext and its hash. -/
def hash_password (salt pwd : String) : String :=
  "Original: " ++ pwd ++ "<br>Hashed: " ++ generate_password_hash salt pwd

/-- A single-quote character as a string (used to build SQL-injection-shaped
probe values). -/
def sq : String := ⟨['\'']⟩

/-- The injection probe from the spec: `foo@example.com' OR '1'='1`. -/
def injectionProbe : String :=
  "foo@example.com" ++ sq ++ " OR " ++ sq ++ "1" ++ sq ++ "=" ++ sq ++ "1"

/-- The §3 constraint on a stored name column, with the lower length bound
weakened to 1: letters and spaces only, nonempty, at most 50 characters. -/
def storedNameOk (s : String) : Bool :=
  s.data.all nameChar && decide (1 ≤ s.data.length) && decide (s.data.length ≤ 50)

/-- The constraints that actually hold of every row the web layer persists:
both names are nonempty letter/space strings of at most 50 characters, and
the email has a valid shape. -/
def storedOk (st : Student) : Bool :=
  storedNameOk st.fname && storedNameOk st.lname && emailOk st.email

/-- The database session: the committed table plus any in-flight
(uncommitted) transaction state. -/
structure DbSession where
  committed : Store
  pending : Option Store
deriving DecidableEq, Repr

/-- `db.session.rollback()`: discard the in-flight transaction; the
committed state is untouched. -/
def rollback (s : DbSession) : DbSession :=
  ⟨s.committed, none⟩

/-- Modelled from the spec: the `500.html` template is repository content
not under `src/`; per the spec it is a generic page with "no internal
detail (no stack traces, no query text)", so it is a constant. -/
def errorPage500 : String := "Internal Server Error"

/-- The `@app.errorhandler(500)` handler: roll back the session, then
render the static 500 page. -/
def internal_error (s : DbSession) : DbSession × String × Nat :=
  (rollback s, errorPage500, 500)

/-! ## Lemmas about `str.strip()` -/

/-- Every character of the stripped string is a character of the original. -/
theorem mem_of_mem_pyStripChars {l : List Char} {c : Char}
    (h : c ∈ pyStripChars l) : c ∈ l := by
  unfold pyStripChars at h
  rw [List.mem_reverse] at h
  have h2 := (List.dropWhile_sublist isPySpace).subset h
  rw [List.mem_reverse] at h2
  exact (List.dropWhile_sublist isPySpace).subset h2

/-- Stripping never lengthens a string. -/
theorem length_pyStripChars_le (l : List Char) :
    (pyStripChars l).length ≤ l.length := by
  unfold pyStripChars
  rw [List.length_reverse]
  calc ((l.dropWhile isPySpace).reverse.dropWhile isPySpace).length
      ≤ (l.dropWhile isPySpace).reverse.length :=
        (List.dropWhile_sublist isPySpace).length_le
    _ = (l.dropWhile isPySpace).length := List.length_reverse _
    _ ≤ l.length := (List.dropWhile_sublist isPySpace).length_le

/-- A trailing whitespace character is removed by stripping. -/
theorem pyStripChars_append_space {c : Char} (l : List Char)
    (hc : isPySpace c = true) :
    pyStripChars (l ++ [c]) = pyStripChars l := by
  unfold pyStripChars
  rw [List.dropWhile_append]
  by_cases he : (l.dropWhile isPySpace).isEmpty = true
  · rw [if_pos he]
    have hnil : l.dropWhile isPySpace = [] := List.isEmpty_iff.mp he
    simp [hnil, List.dropWhile_cons, hc]
  · rw [if_neg he]
    simp [List.reverse_append, List.dropWhile_cons, hc]

/-- `dropWhile` is the identity on a list none of whose characters satisfy
the predicate. -/
theorem dropWhile_of_none {p : Char → Bool} {l : List Char}
    (h : ∀ c ∈ l, p c = false) : l.dropWhile p = l := by
  cases l with
  | nil => rfl
  | cons a t => simp [List.dropWhile_cons, h a (List.mem_cons_self a t)]

/-- Stripping is the identity on a whitespace-free string. -/
theorem pyStripChars_of_no_space {l : List Char}
    (h : ∀ c ∈ l, isPySpace c = false) : pyStripChars l = l := by
  unfold pyStripChars
  rw [dropWhile_of_none h]
  rw [dropWhile_of_none (fun c hc => h c (List.mem_reverse.mp hc))]
  exact List.reverse_reverse l

/-! ## Lemmas about the validators -/

/-- A value accepted by the name regexp strips to a letters-and-spaces
string (the one non-letter character the regexp can admit, a final newline,
is removed by stripping). -/
theorem nameChar_of_pyStrip {s : String} (hre : nameRegexpOk s = true) :
    ∀ c ∈ pyStripChars s.data, nameChar c = true := by
  unfold nameRegexpOk at hre
  rw [Bool.or_eq_true] at hre
  cases hre with
  | inl hall =>
    intro c hc
    exact List.all_eq_true.mp hall c (mem_of_mem_pyStripChars hc)
  | inr hnl =>
    rw [Bool.and_eq_true] at hnl
    obtain ⟨h1, h2⟩ := hnl
    obtain ⟨t, ht⟩ := List.getLast?_eq_some_iff.mp (eq_of_beq h1)
    rw [ht, List.dropLast_concat] at h2
    rw [ht, pyStripChars_append_space t (by decide)]
    intro c hc
    exact List.all_eq_true.mp h2 c (mem_of_mem_pyStripChars hc)

/-- A raw name value that passes `DataRequired`, `Length(2,50)` and the
letters/spaces regexp strips to a stored value satisfying `storedNameOk`. -/
theorem storedNameOk_of_valid {s : String} (hreq : dataRequiredOk s = true)
    (hlen : lengthOk s = true) (hre : nameRegexpOk s = true) :
    storedNameOk (pyStrip s) = true := by
  unfold storedNameOk pyStrip
  unfold dataRequiredOk at hreq
  unfold lengthOk at hlen
  rw [Bool.and_eq_true] at hlen
  have h50 : s.data.length ≤ 50 := of_decide_eq_true hlen.2
  have hne : pyStripChars s.data ≠ [] := by
    intro hnil
    rw [Bool.not_eq_true'] at hreq
    rw [hnil] at hreq
    cases hreq
  simp only [Bool.and_eq_true, List.all_eq_true, decide_eq_true_eq]
  refine ⟨⟨?_, ?_⟩, ?_⟩
  · exact fun c hc => nameChar_of_pyStrip hre c hc
  · exact Nat.succ_le_of_lt (List.length_pos.mpr hne)
  · exact Nat.le_trans (length_pyStripChars_le s.data) h50

/-- A value accepted by the email-shape validator contains no whitespace,
so stripping leaves it unchanged. -/
theorem pyStrip_of_emailOk {s : String} (h : emailOk s = true) :
    pyStrip s = s := by
  unfold emailOk at h
  simp only [Bool.and_eq_true] at h
  have hall := h.2
  rw [List.all_eq_true] at hall
  have hns : ∀ c ∈ s.data, isPySpace c = false := by
    intro c hc
    have := hall c hc
    rw [Bool.not_eq_true'] at this
    exact this
  unfold pyStrip
  rw [pyStripChars_of_no_space hns]

/-- The stored email of a validated submission still has a valid shape. -/
theorem emailOk_pyStrip {s : String} (h : emailOk s = true) :
    emailOk (pyStrip s) = true := by
  rw [pyStrip_of_emailOk h]
  exact h

/-- An empty error list for a name field means all three validators of the
chain passed. -/
theorem nameField_valid {s : String} (h : nameFieldErrors s = []) :
    dataRequiredOk s = true ∧ lengthOk s = true ∧ nameRegexpOk s = true := by
  unfold nameFieldErrors at h
  by_cases h1 : dataRequiredOk s = true
  · rw [if_pos h1, List.append_eq_nil] at h
    obtain ⟨ha, hb⟩ := h
    refine ⟨h1, ?_, ?_⟩
    · by_cases h2 : lengthOk s = true
      · exact h2
      · rw [if_neg h2] at ha
        cases ha
    · by_cases h3 : nameRegexpOk s = true
      · exact h3
      · rw [if_neg h3] at hb
        cases hb
  · rw [if_neg h1] at h
    cases h

/-- An empty error list for the email field means both its validators
passed. -/
theorem emailField_valid {s : String} (h : emailFieldErrors s = []) :
    dataRequiredOk s = true ∧ emailOk s = true := by
  unfold emailFieldErrors at h
  by_cases h1 : dataRequiredOk s = true
  · rw [if_pos h1] at h
    refine ⟨h1, ?_⟩
    by_cases h2 : emailOk s = true
    · exact h2
    · rw [if_neg h2] at h
      cases h
  · rw [if_neg h1] at h
    cases h

/-- A validated form has an empty error list for each field. -/
theorem formValidates_fields {fd : StudentFormData}
    (h : formValidates fd = true) :
    nameFieldErrors fd.fname = [] ∧ nameFieldErrors fd.lname = [] ∧
      emailFieldErrors fd.email = [] := by
  unfold formValidates at h
  rw [List.isEmpty_iff] at h
  unfold formErrors at h
  simp only [List.append_eq_nil, List.map_eq_nil_iff] at h
  exact ⟨h.1.1, h.1.2, h.2⟩

/-- The three stored field values of a validated submission satisfy the
stored-field constraints. -/
theorem storedFields_of_valid {fd : StudentFormData}
    (h : formValidates fd = true) :
    storedNameOk (pyStrip fd.fname) = true ∧
      storedNameOk (pyStrip fd.lname) = true ∧
      emailOk (pyStrip fd.email) = true := by
  obtain ⟨hf, hl, he⟩ := formValidates_fields h
  obtain ⟨hf1, hf2, hf3⟩ := nameField_valid hf
  obtain ⟨hl1, hl2, hl3⟩ := nameField_valid hl
  obtain ⟨he1, he2⟩ := emailField_valid he
  exact ⟨storedNameOk_of_valid hf1 hf2 hf3, storedNameOk_of_valid hl1 hl2 hl3,
    emailOk_pyStrip he2⟩

/-! ## Lemmas about the store -/

/-- Every member of a list of naturals is bounded by its `foldr max`. -/
theorem le_foldr_max {l : List Nat} {n : Nat} (h : n ∈ l) :
    n ≤ l.foldr Nat.max 0 := by
  induction l with
  | nil => cases h
  | cons a t ih =>
    rw [List.foldr_cons]
    rcases List.mem_cons.mp h with rfl | ht
    · exact Nat.le_max_left _ _
    · exact Nat.le_trans (ih ht) (Nat.le_max_right _ _)

/-- The store-assigned id of a new row is strictly larger than every
existing id. -/
theorem id_lt_nextId {store : Store} {r : Student} (h : r ∈ store) :
    r.id < nextId store := by
  unfold nextId
  exact Nat.lt_succ_of_le (le_foldr_max (List.mem_map_of_mem Student.id h))

/-- Looking up the freshly assigned id after an insert finds exactly the
inserted row. -/
theorem getStudent_append_new (store : Store) (st : Student)
    (hid : st.id = nextId store) :
    getStudent (store ++ [st]) (nextId store) = some st := by
  unfold getStudent
  rw [List.find?_append]
  have h1 : store.find? (fun r => r.id == nextId store) = none := by
    rw [List.find?_eq_none]
    intro r hr
    simp only [beq_iff_eq]
    exact Nat.ne_of_lt (id_lt_nextId hr)
  rw [h1]
  simp [hid]

/-- The update row-transformer never changes a row's primary key. -/
theorem applyUpdate_id (i : Nat) (fd : StudentFormData) (r : Student) :
    (applyUpdate i fd r).id = r.id := by
  unfold applyUpdate
  by_cases h : (r.id == i) = true
  · rw [if_pos h]
  · rw [if_neg h]

/-! ## The claims -/

/-- Claim C1, counterexample: the raw value `" A "` passes every validator
(`DataRequired` sees a nonempty strip, `Length` measures the raw length 3,
the regexp accepts letters and spaces), yet the handler stores its stripped
form `"A"`, whose length 1 violates the claimed 2–50 bound. -/
theorem c1_stored_length_violation :
    formValidates ⟨" A ", "Lee", "ann@x.com"⟩ = true ∧
      (postIndex [] ⟨" A ", "Lee", "ann@x.com"⟩).1 =
        [⟨1, "A", "Lee", "ann@x.com"⟩] ∧
      ("A" : String).data.length < 2 := by
  decide

/-- Claim C1, amended: every record persisted through the web layer's
create or update operations has first and last names of letters and spaces
only with length 1–50, and an email of valid shape.  The 2–50 length bound
is enforced on the submitted value before trimming; trimming whitespace
afterwards can shorten a stored name to length 1 (but never to 0, since
`DataRequired` rejects values that strip to empty). -/
theorem c1_persisted_records_ok (store : Store) (fd : StudentFormData)
    (i : Nat) :
    (∀ st ∈ (postIndex store fd).1, st ∈ store ∨ storedOk st = true) ∧
      (∀ st ∈ (postUpdate store i fd).1, st ∈ store ∨ storedOk st = true) := by
  constructor
  · intro st hst
    unfold postIndex at hst
    by_cases hv : formValidates fd = true
    · rw [if_pos hv] at hst
      rcases List.mem_append.mp hst with h | h
      · exact Or.inl h
      · right
        rw [List.mem_singleton] at h
        subst h
        obtain ⟨h1, h2, h3⟩ := storedFields_of_valid hv
        unfold storedOk
        simp [h1, h2, h3]
    · rw [if_neg hv] at hst
      exact Or.inl hst
  · intro st hst
    unfold postUpdate at hst
    cases hg : getStudent store i with
    | none =>
      rw [hg] at hst
      exact Or.inl hst
    | some s =>
      rw [hg] at hst
      by_cases hv : formValidates fd = true
      · rw [if_pos hv] at hst
        rcases List.mem_map.mp hst with ⟨r, hr, hru⟩
        unfold applyUpdate at hru
        by_cases hri : (r.id == i) = true
        · rw [if_pos hri] at hru
          subst hru
          right
          obtain ⟨h1, h2, h3⟩ := storedFields_of_valid hv
          unfold storedOk
          simp [h1, h2, h3]
        · rw [if_neg hri] at hru
          subst hru
          exact Or.inl hr
      · rw [if_neg hv] at hst
        exact Or.inl hst

/-- Witness for the amended C1: the row created from a concrete valid
submission satisfies the stored-field constraints. -/
theorem c1_persisted_records_ok_witness :
    (⟨1, "Ann", "Lee", "ann@x.com"⟩ : Student) ∈ ([] : Store) ∨
      storedOk ⟨1, "Ann", "Lee", "ann@x.com"⟩ = true := by
  exact (c1_persisted_records_ok [] ⟨"Ann", "Lee", "ann@x.com"⟩ 0).1
    ⟨1, "Ann", "Lee", "ann@x.com"⟩ (by decide)

/-- Claim C3: a submission whose three raw fields pass validation is
created: the response redirects to `/` with the success notice, the new
row (the stripped field values under the freshly assigned id) appears in
the subsequent listing, and looking up the assigned id returns exactly the
submitted values modulo whitespace trimming. -/
theorem c3_create_roundtrip (store : Store) (f l e : String)
    (hv : formValidates ⟨f, l, e⟩ = true) :
    (postIndex store ⟨f, l, e⟩).2 =
        Response.redirect "/" "Student added successfully and securely!" ∧
      (⟨nextId store, pyStrip f, pyStrip l, pyStrip e⟩ : Student) ∈
        list_all (postIndex store ⟨f, l, e⟩).1 ∧
      getStudent (postIndex store ⟨f, l, e⟩).1 (nextId store) =
        some ⟨nextId store, pyStrip f, pyStrip l, pyStrip e⟩ := by
  unfold postIndex
  rw [if_pos hv]
  refine ⟨rfl, ?_, ?_⟩
  · unfold list_all
    exact List.mem_append.mpr (Or.inr (List.mem_singleton.mpr rfl))
  · exact getStudent_append_new store _ rfl

/-- Witness for C3: creating `("Ann", "Lee", "ann@x.com")` in the empty
store assigns id 1 and the lookup round-trips the values unchanged. -/
theorem c3_create_roundtrip_witness :
    (postIndex [] ⟨"Ann", "Lee", "ann@x.com"⟩).2 =
        Response.redirect "/" "Student added successfully and securely!" ∧
      getStudent (postIndex [] ⟨"Ann", "Lee", "ann@x.com"⟩).1 1 =
        some ⟨1, "Ann", "Lee", "ann@x.com"⟩ := by
  have h := c3_create_roundtrip [] "Ann" "Lee" "ann@x.com" (by decide)
  have e1 : nextId ([] : Store) = 1 := by decide
  have e2 : pyStrip "Ann" = "Ann" := by decide
  have e3 : pyStrip "Lee" = "Lee" := by decide
  have e4 : pyStrip "ann@x.com" = "ann@x.com" := by decide
  obtain ⟨ha, _, hc⟩ := h
  rw [e1, e2, e3, e4] at hc
  exact ⟨ha, hc⟩

/-- Claim C4: a submission with any invalid field is rejected: the store
is unchanged, the form is re-rendered with the previously entered values,
and the nonempty error list tags each message with the name of the
offending field. -/
theorem c4_invalid_rejected (store : Store) (fd : StudentFormData)
    (hv : formValidates fd = false) :
    (postIndex store fd).1 = store ∧
      (postIndex store fd).2 = Response.html "index.html" (formErrors fd) fd ∧
      formErrors fd ≠ [] := by
  unfold postIndex
  rw [if_neg (by simp [hv])]
  refine ⟨rfl, rfl, ?_⟩
  intro h
  unfold formValidates at hv
  rw [h] at hv
  cases hv

/-- Witness for C4: `"A1"` (a first name containing a digit) is rejected,
the store stays empty, and the single error names the `fname` field. -/
theorem c4_invalid_rejected_witness :
    (postIndex [] ⟨"A1", "Lee", "ann@x.com"⟩).1 = [] ∧
      formErrors ⟨"A1", "Lee", "ann@x.com"⟩ =
        [("fname", "Only letters allowed")] := by
  have h := c4_invalid_rejected [] ⟨"A1", "Lee", "ann@x.com"⟩ (by decide)
  exact ⟨h.1, by decide⟩

/-- Claim C5, counterexample: the delete route's decorator passes no
`methods` argument, so Flask registers it for GET (plus the automatic HEAD
and OPTIONS) only — POST to `/delete/<id>` is not routed (405), refuting
"reachable via both GET and POST". -/
theorem c5_delete_post_not_routed : "POST" ∉ deleteMethods := by
  decide

/-- Claim C5, amended: the delete operation is reachable via GET only (a
POST is not routed).  For every id, if no record with that id exists the
response is the not-found page and the store is unchanged; otherwise the
record is deleted, the response redirects to `/` with the notice, a
subsequent lookup of the id yields not-found, and every other record
survives. -/
theorem c5_delete_spec (store : Store) (i : Nat) :
    "GET" ∈ deleteMethods ∧ "POST" ∉ deleteMethods ∧
      (getStudent store i = none →
        deleteRoute store i = (store, Response.notFound)) ∧
      (∀ s, getStudent store i = some s →
        (deleteRoute store i).2 =
            Response.redirect "/" "Student deleted securely!" ∧
          getStudent (deleteRoute store i).1 i = none ∧
          ∀ r ∈ store, r.id ≠ i → r ∈ (deleteRoute store i).1) := by
  refine ⟨by decide, by decide, ?_, ?_⟩
  · intro h
    unfold deleteRoute
    rw [h]
  · intro s hs
    unfold deleteRoute
    rw [hs]
    refine ⟨rfl, ?_, ?_⟩
    · unfold getStudent
      rw [List.find?_eq_none]
      intro r hr
      have hne := (List.mem_filter.mp hr).2
      simp only [Bool.not_eq_eq_eq_not, Bool.not_true] at hne
      simp [hne]
    · intro r hr hne
      exact List.mem_filter.mpr ⟨hr, by simp [hne]⟩

/-- Witness for the amended C5: deleting the only record of a concrete
store redirects with the notice and a subsequent lookup finds nothing,
while a record with a different id survives. -/
theorem c5_delete_spec_witness :
    (deleteRoute [⟨1, "Ann", "Lee", "ann@x.com"⟩, ⟨2, "Bob", "Kim", "b@k.io"⟩] 1).2 =
        Response.redirect "/" "Student deleted securely!" ∧
      getStudent
        (deleteRoute [⟨1, "Ann", "Lee", "ann@x.com"⟩, ⟨2, "Bob", "Kim", "b@k.io"⟩] 1).1
        1 = none ∧
      (⟨2, "Bob", "Kim", "b@k.io"⟩ : Student) ∈
        (deleteRoute [⟨1, "Ann", "Lee", "ann@x.com"⟩, ⟨2, "Bob", "Kim", "b@k.io"⟩] 1).1 := by
  have h := (c5_delete_spec [⟨1, "Ann", "Lee", "ann@x.com"⟩, ⟨2, "Bob", "Kim", "b@k.io"⟩] 1).2.2.2
    ⟨1, "Ann", "Lee", "ann@x.com"⟩ (by decide)
  exact ⟨h.1, h.2.1, h.2.2 ⟨2, "Bob", "Kim", "b@k.io"⟩ (by decide) (by decide)⟩

/-- Claim C6: when no record with the requested id exists, both the GET and
the POST update handlers hit `get_or_404` and return the not-found page with
the store unchanged — in particular no record is created. -/
theorem c6_update_not_found (store : Store) (i : Nat) (fd : StudentFormData)
    (h : getStudent store i = none) :
    getUpdate store i = (store, Response.notFound) ∧
      postUpdate store i fd = (store, Response.notFound) := by
  unfold getUpdate postUpdate
  rw [h]
  exact ⟨rfl, rfl⟩

/-- Witness for C6: updating id 7 in a store that only holds id 1 is a
not-found outcome on both methods and leaves the store as it was. -/
theorem c6_update_not_found_witness :
    getUpdate [⟨1, "Ann", "Lee", "ann@x.com"⟩] 7 =
        ([⟨1, "Ann", "Lee", "ann@x.com"⟩], Response.notFound) ∧
      postUpdate [⟨1, "Ann", "Lee", "ann@x.com"⟩] 7 ⟨"Bob", "Kim", "b@k.io"⟩ =
        ([⟨1, "Ann", "Lee", "ann@x.com"⟩], Response.notFound) := by
  exact c6_update_not_found [⟨1, "Ann", "Lee", "ann@x.com"⟩] 7
    ⟨"Bob", "Kim", "b@k.io"⟩ (by decide)

/-- Claim C7: a successful POST update of an existing id replaces exactly
the three fields of that record with the validated, stripped submitted
values: the response redirects with the notice, the looked-up record now
carries the stripped values under its unchanged id, the id column of the
store is unchanged row-for-row (ids are immutable and no row is added or
removed), and every record with a different id survives unchanged. -/
theorem c7_update_full_replace (store : Store) (i : Nat) (s : Student)
    (fd : StudentFormData) (hs : getStudent store i = some s)
    (hv : formValidates fd = true) :
    (postUpdate store i fd).2 = Response.redirect "/" "Record updated securely!" ∧
      getStudent (postUpdate store i fd).1 i =
        some ⟨s.id, pyStrip fd.fname, pyStrip fd.lname, pyStrip fd.email⟩ ∧
      (postUpdate store i fd).1.map Student.id = store.map Student.id ∧
      ∀ r ∈ store, r.id ≠ i → r ∈ (postUpdate store i fd).1 := by
  unfold postUpdate
  rw [hs, if_pos hv]
  refine ⟨rfl, ?_, ?_, ?_⟩
  · unfold getStudent
    rw [List.find?_map]
    have hp : ((fun r : Student => r.id == i) ∘ applyUpdate i fd) =
        (fun r : Student => r.id == i) := by
      funext r
      simp [Function.comp, applyUpdate_id]
    rw [hp]
    unfold getStudent at hs
    rw [hs]
    have hsi : (s.id == i) = true := by
      have h2 := List.find?_some hs
      simpa using h2
    simp [applyUpdate, hsi]
  · rw [List.map_map]
    have hp : (Student.id ∘ applyUpdate i fd) = Student.id := by
      funext r
      exact applyUpdate_id i fd r
    rw [hp]
  · intro r hr hne
    have hfix : applyUpdate i fd r = r := by
      unfold applyUpdate
      rw [if_neg (by simp [hne])]
    exact List.mem_map.mpr ⟨r, hr, hfix⟩

/-- Witness for C7: updating id 1 of a two-record store to
`("Anne", "Lee", "anne@x.com")` rewrites exactly that row, keeps id 1, and
leaves the id column and the other record intact. -/
theorem c7_update_full_replace_witness :
    (postUpdate [⟨1, "Ann", "Lee", "ann@x.com"⟩, ⟨2, "Bob", "Kim", "b@k.io"⟩] 1
          ⟨"Anne", "Lee", "anne@x.com"⟩).2 =
        Response.redirect "/" "Record updated securely!" ∧
      getStudent
          (postUpdate [⟨1, "Ann", "Lee", "ann@x.com"⟩, ⟨2, "Bob", "Kim", "b@k.io"⟩] 1
            ⟨"Anne", "Lee", "anne@x.com"⟩).1 1 =
        some ⟨1, "Anne", "Lee", "anne@x.com"⟩ ∧
      (⟨2, "Bob", "Kim", "b@k.io"⟩ : Student) ∈
        (postUpdate [⟨1, "Ann", "Lee", "ann@x.com"⟩, ⟨2, "Bob", "Kim", "b@k.io"⟩] 1
          ⟨"Anne", "Lee", "anne@x.com"⟩).1 := by
  have h := c7_update_full_replace
    [⟨1, "Ann", "Lee", "ann@x.com"⟩, ⟨2, "Bob", "Kim", "b@k.io"⟩] 1
    ⟨1, "Ann", "Lee", "ann@x.com"⟩ ⟨"Anne", "Lee", "anne@x.com"⟩
    (by decide) (by decide)
  have e2 : pyStrip "Anne" = "Anne" := by decide
  have e3 : pyStrip "Lee" = "Lee" := by decide
  have e4 : pyStrip "anne@x.com" = "anne@x.com" := by decide
  obtain ⟨ha, hb, _, hd⟩ := h
  rw [e2, e3, e4] at hb
  exact ⟨ha, hb, hd ⟨2, "Bob", "Kim", "b@k.io"⟩ (by decide) (by decide)⟩

/-- Claim C2, counterexample: for the empty string the claim fails — a
record whose email column is literally empty exists in the store, yet
`GET /search?email=` returns the empty result, because the handler treats a
falsy parameter as "absent" and never consults the store. -/
theorem c2_search_empty_literal_mismatch :
    searchRoute [⟨1, "Ann", "Lee", ""⟩] (some "") = [] ∧
      find_by_email [⟨1, "Ann", "Lee", ""⟩] "" = [⟨1, "Ann", "Lee", ""⟩] := by
  decide

/-- Claim C2, amended: for every nonempty string `e`, `GET /search?email=e`
returns exactly the stored records whose email equals `e` as a literal
string (parameter binding; no interpolation): a record is in the result iff
it is in the store and its email is literally `e`.  In particular an
injection-shaped value matches nothing unless some record literally carries
it.  For the empty string the handler short-circuits to the empty result
without consulting the store. -/
theorem c2_search_exact_match (store : Store) (e : String) (he : e ≠ "") :
    ∀ r, r ∈ searchRoute store (some e) ↔ r ∈ store ∧ r.email = e := by
  intro r
  have hne : (e == "") = false := by
    rw [Bool.eq_false_iff]
    intro hemp
    exact he (eq_of_beq hemp)
  unfold searchRoute find_by_email
  simp only [Option.getD_some]
  rw [if_neg (by simp [hne])]
  simp [List.mem_filter]

/-- Witness for the amended C2: with one stored record carrying
`foo@example.com`, searching that exact email finds it, and searching the
injection probe `foo@example.com' OR '1'='1` as a literal finds nothing. -/
theorem c2_search_exact_match_witness :
    ((⟨1, "Ann", "Lee", "foo@example.com"⟩ : Student) ∈
        searchRoute [⟨1, "Ann", "Lee", "foo@example.com"⟩] (some "foo@example.com")) ∧
      searchRoute [⟨1, "Ann", "Lee", "foo@example.com"⟩] (some injectionProbe) = [] := by
  constructor
  · exact (c2_search_exact_match [⟨1, "Ann", "Lee", "foo@example.com"⟩]
      "foo@example.com" (by decide) ⟨1, "Ann", "Lee", "foo@example.com"⟩).mpr
      ⟨List.mem_singleton.mpr rfl, rfl⟩
  · rw [List.eq_nil_iff_forall_not_mem]
    intro r hr
    obtain ⟨hmem, hemail⟩ := (c2_search_exact_match
      [⟨1, "Ann", "Lee", "foo@example.com"⟩] injectionProbe (by decide) r).mp hr
    rw [List.mem_singleton] at hmem
    subst hmem
    exact absurd hemail (by decide)

/-- Claim C10: a present-but-empty `email` query parameter is handled
exactly like an absent one: the handler returns the empty result without
consulting the store — for every store, including one holding a record
whose email column is empty, the result is `[]`. -/
theorem c10_search_empty_param (store : Store) :
    searchRoute store none = [] ∧ searchRoute store (some "") = [] ∧
      searchRoute store none = searchRoute store (some "") :=
  ⟨rfl, rfl, rfl⟩

/-! ## Lemmas about the modelled hasher -/

/-- The character data of a produced hash string. -/
theorem generate_data (salt p : String) :
    (generate_password_hash salt p).data =
      "$2b$12$".data ++ salt.data ++ (bcryptDigest p).data := rfl

/-- The length of a produced hash string: header plus salt plus a digest
as long as the plaintext. -/
theorem generate_length (salt p : String) :
    (generate_password_hash salt p).data.length =
      7 + salt.data.length + p.data.length := by
  rw [generate_data, List.length_append, List.length_append]
  have h7 : ("$2b$12$".data).length = 7 := by decide
  have hd : ((bcryptDigest p).data).length = p.data.length := by
    unfold bcryptDigest
    exact List.length_map _ _
  omega

/-- A produced hash is never the plaintext: it is strictly longer. -/
theorem generate_ne_plaintext (salt p : String) :
    generate_password_hash salt p ≠ p := by
  intro h
  have hlen : (generate_password_hash salt p).data.length = p.data.length := by
    rw [h]
  rw [generate_length] at hlen
  omega

/-- Distinct salts yield distinct hash strings for the same plaintext. -/
theorem generate_salt_injective {s1 s2 p : String}
    (h : generate_password_hash s1 p = generate_password_hash s2 p) :
    s1 = s2 := by
  have hd : "$2b$12$".data ++ s1.data ++ (bcryptDigest p).data =
      "$2b$12$".data ++ s2.data ++ (bcryptDigest p).data := by
    rw [← generate_data, ← generate_data, h]
  rw [List.append_assoc, List.append_assoc] at hd
  have hd2 := List.append_cancel_left hd
  have hd3 := List.append_cancel_right hd2
  exact String.ext hd3

/-- Verification succeeds: the verify operation recovers the digest region
past the fixed-length header and salt and finds the plaintext's digest. -/
theorem check_generate (salt p : String)
    (hs : salt.data.length = bcryptSaltLen) :
    check_password_hash (generate_password_hash salt p) p = true := by
  unfold check_password_hash
  rw [generate_data]
  have e1 : ("$2b$12$".data ++ salt.data ++ (bcryptDigest p).data).take 7 =
      "$2b$12$".data := by
    rw [List.append_assoc]
    exact List.take_left' (by decide)
  have e2 : ("$2b$12$".data ++ salt.data ++ (bcryptDigest p).data).drop
      (7 + bcryptSaltLen) = (bcryptDigest p).data := by
    refine List.drop_left' ?_
    rw [List.length_append, hs]
    decide
  rw [e1, e2]
  simp

/-- Claim C8: for every plaintext, two calls of the hasher drawing distinct
salts yield two different hash strings, neither output equals the
plaintext, and each produced hash verifies against the plaintext under the
hasher's verify operation. -/
theorem c8_hash_password_spec (p s1 s2 : String)
    (h1 : s1.data.length = bcryptSaltLen) (h2 : s2.data.length = bcryptSaltLen)
    (hne : s1 ≠ s2) :
    generate_password_hash s1 p ≠ generate_password_hash s2 p ∧
      generate_password_hash s1 p ≠ p ∧
      generate_password_hash s2 p ≠ p ∧
      check_password_hash (generate_password_hash s1 p) p = true ∧
      check_password_hash (generate_password_hash s2 p) p = true := by
  refine ⟨?_, generate_ne_plaintext s1 p, generate_ne_plaintext s2 p,
    check_generate s1 p h1, check_generate s2 p h2⟩
  intro h
  exact hne (generate_salt_injective h)

/-- Witness for C8 at plaintext `"secret"` and two concrete distinct
22-character salts. -/
theorem c8_hash_password_spec_witness :
    generate_password_hash "aaaaaaaaaaaaaaaaaaaaaa" "secret" ≠
        generate_password_hash "bbbbbbbbbbbbbbbbbbbbbb" "secret" ∧
      generate_password_hash "aaaaaaaaaaaaaaaaaaaaaa" "secret" ≠ "secret" ∧
      check_password_hash
        (generate_password_hash "aaaaaaaaaaaaaaaaaaaaaa" "secret") "secret" = true := by
  have h := c8_hash_password_spec "secret" "aaaaaaaaaaaaaaaaaaaaaa"
    "bbbbbbbbbbbbbbbbbbbbbb" (by decide) (by decide) (by decide)
  exact ⟨h.1, h.2.1, h.2.2.2.1⟩

/-- Claim C9: the 500 handler first rolls back the session — the committed
store is exactly what it was before the failed request's uncommitted
mutations, which are discarded — and only then responds; the rendered page
is one constant (status 500) for every session state, so it reveals no
internal state. -/
theorem c9_internal_error_rolls_back (s : DbSession) :
    (internal_error s).1.committed = s.committed ∧
      (internal_error s).1.pending = none ∧
      ∀ t : DbSession, (internal_error s).2 = (internal_error t).2 :=
  ⟨rfl, rfl, fun _ => rfl⟩

end SecureFlaskApp
